import Mathlib

/-!
Verification of the marinara pomodoro timer (src/src/main.rs).

The phase engine is the method State::display: given the optional start
timestamp and the current time, both in whole seconds since the epoch,
it renders the current phase as a string.  The config stores the work
and rest lengths in whole minutes; display works on the truncated
elapsed minute count, elapsed / 60.

Machine integers are modelled as Nat.  The two u64 operations of the
engine that can fail are modelled explicitly, as a none result: the
subtraction current_time - started_at underflows when the clock reads
earlier than the recorded start, and the addition
config.duration + config.rest overflows when the sum reaches 2 ^ 64.
Every other operation of the engine stays in range by its guard.
-/

/-- Upper bound of the u64 range: a checked u64 operation fails when
its mathematical result reaches this value. -/
def u64Max : Nat := 2 ^ 64

/-- Embeds the struct Config of src/src/main.rs: count is the repeat
count, duration the work length in minutes, rest the rest length in
minutes. -/
structure Config where
  count : Nat
  duration : Nat
  rest : Nat
deriving DecidableEq, Repr

/-- Embeds the Default instance for Config of src/src/main.rs. -/
def Config.default : Config :=
  { count := 8, duration := 25, rest := 5 }

/-- Embeds the struct State of src/src/main.rs: the optional start
timestamp in seconds since the epoch, plus the config snapshot. -/
structure State where
  started_at : Option Nat
  config : Config
deriving DecidableEq, Repr

/-- Embeds the method State::display of src/src/main.rs.  The result
is none exactly when the Rust code hits a u64 arithmetic failure:
either the subtraction current_time - started_at underflows, or the
addition config.duration + config.rest overflows. -/
def State.display (st : State) (current_time : Nat) : Option String :=
  match st.started_at with
  | some started_at =>
    if started_at ≤ current_time then
      let elapsed := current_time - started_at
      let elapsed_min := elapsed / 60
      if elapsed_min ≤ st.config.duration then
        some ("W: " ++ toString (st.config.duration - elapsed_min) ++ "m")
      else if st.config.duration + st.config.rest < u64Max then
        if elapsed_min < st.config.duration + st.config.rest then
          some ("R: " ++ toString (st.config.duration + st.config.rest - elapsed_min) ++ "m")
        else
          some "READY"
      else
        none
    else
      none
  | none => some "no pomodoro running"

/-- Embeds the function Config::load of src/src/main.rs.  The result of
opening the config file is modelled as an optional contents string,
none meaning the file could not be opened.  Parsing, done by the
external toml library, is passed in as a function; a read or parse
failure of an opened file is an error value that the question-mark
operator propagates. -/
def Config.load (file : Option String) (parse : String → Except String Config) :
    Except String Config :=
  match file with
  | some contents => parse contents
  | none => Except.ok Config.default

/-- Embeds the Marinara::Start arm of main in src/src/main.rs: the
state written to the state file by the start command, as a function of
the prior contents of the state file, the loaded config and the current
time.  The prior contents are never read by this arm of main, which the
unused first parameter records. -/
def startCommand (_prior : Option State) (config : Config) (now : Nat) : State :=
  { started_at := some now, config := config }

/-- Helper: behaviour of display on a running session once the clock
underflow guard is discharged. -/
theorem State.display_some (s n : Nat) (c : Config) (h : s ≤ n) :
    State.display ⟨some s, c⟩ n =
      (if (n - s) / 60 ≤ c.duration then
        some ("W: " ++ toString (c.duration - (n - s) / 60) ++ "m")
      else if c.duration + c.rest < u64Max then
        if (n - s) / 60 < c.duration + c.rest then
          some ("R: " ++ toString (c.duration + c.rest - (n - s) / 60) ++ "m")
        else
          some "READY"
      else
        none) := by
  simp only [State.display]
  rw [if_pos h]

/-- C6: whenever started_at is none, display yields the idle message
for every current time and every config. -/
theorem display_idle (c : Config) (n : Nat) :
    State.display ⟨none, c⟩ n = some "no pomodoro running" := rfl

/-- C8: the start command unconditionally produces a state whose
started_at is some now; the prior contents of the state file are
ignored, so any in-progress session is overwritten. -/
theorem start_unconditional :
    ∀ (prior : Option State) (c : Config) (now : Nat),
      (startCommand prior c now).started_at = some now ∧
      ∀ prior₂ : Option State, startCommand prior c now = startCommand prior₂ c now :=
  fun _ _ _ => ⟨rfl, fun _ => rfl⟩

/-- C9: the repeat count is unused by the phase engine: two configs
that agree on duration and rest produce identical output for every
session state and time. -/
theorem count_noninterference (c₁ c₂ : Config)
    (hd : c₁.duration = c₂.duration) (hr : c₁.rest = c₂.rest)
    (st : Option Nat) (n : Nat) :
    State.display ⟨st, c₁⟩ n = State.display ⟨st, c₂⟩ n := by
  obtain ⟨k₁, d₁, r₁⟩ := c₁
  obtain ⟨k₂, d₂, r₂⟩ := c₂
  cases hd
  cases hr
  cases st <;> rfl

/-- C9 witness: two default-like configs differing only in count render
the same status at a concrete time. -/
theorem count_noninterference_witness :
    State.display ⟨some 0, ⟨8, 25, 5⟩⟩ 600 = State.display ⟨some 0, ⟨1, 25, 5⟩⟩ 600 :=
  count_noninterference ⟨8, 25, 5⟩ ⟨1, 25, 5⟩ rfl rfl (some 0) 600

/-- C1 counterexample: with the default config, started_at = 0 and
now = 1600, the engine renders "R: 4m", not the "R: 3m" the claim
states (the matching unit test in src/src/main.rs also expects
"R: 4m"). -/
theorem display_rest_counterexample :
    State.display ⟨some 0, Config.default⟩ 1600 = some "R: 4m" ∧
    State.display ⟨some 0, Config.default⟩ 1600 ≠ some "R: 3m" := by
  constructor
  · rfl
  · decide

/-- C1 (amended): the Rest phase is minute-granular: whenever the
truncated elapsed minute count (now - started_at) / 60 lies strictly
between the configured work minutes and work plus rest minutes, display
renders the letter R with remaining minutes equal to
duration + rest - (now - started_at) / 60. -/
theorem display_rest_minutes (c : Config) (s n : Nat) (h₁ : s ≤ n)
    (h₂ : c.duration < (n - s) / 60) (h₃ : (n - s) / 60 < c.duration + c.rest)
    (h₄ : c.duration + c.rest < u64Max) :
    State.display ⟨some s, c⟩ n =
      some ("R: " ++ toString (c.duration + c.rest - (n - s) / 60) ++ "m") := by
  rw [State.display_some s n c h₁, if_neg (by omega), if_pos h₄, if_pos h₃]

/-- C1 witness: the default config at now = 1600 is in the Rest phase
with 4 whole minutes displayed. -/
theorem display_rest_minutes_witness :
    State.display ⟨some 0, Config.default⟩ 1600 = some "R: 4m" := by
  have h := display_rest_minutes Config.default 0 1600 (by omega) (by decide)
    (by decide) (by norm_num [u64Max, Config.default])
  rw [h]
  rfl

/-- C2 counterexample: with the default config and elapsed 90 seconds,
the engine renders "W: 24m", although work_duration - elapsed is
1410 seconds, which truncates to 23 minutes: the displayed remaining
value is not work_duration - elapsed. -/
theorem work_remaining_counterexample :
    State.display ⟨some 0, Config.default⟩ 90 = some "W: 24m" ∧
    State.display ⟨some 0, Config.default⟩ 90 ≠
      some ("W: " ++ toString ((60 * Config.default.duration - 90) / 60) ++ "m") := by
  constructor
  · rfl
  · decide

/-- C2 (amended): for every elapsed in the closed interval from 0 to
the work duration in seconds, display is in the Work phase and shows
duration - (elapsed / 60) minutes, a value that is monotonically
non-increasing as elapsed grows; the upper boundary is inclusive, so
elapsed equal to the work duration still renders Work. -/
theorem display_work_phase (c : Config) (s n : Nat) (h₁ : s ≤ n)
    (h₂ : n - s ≤ 60 * c.duration) :
    State.display ⟨some s, c⟩ n =
      some ("W: " ++ toString (c.duration - (n - s) / 60) ++ "m") ∧
    ∀ n₂, n ≤ n₂ → n₂ - s ≤ 60 * c.duration →
      c.duration - (n₂ - s) / 60 ≤ c.duration - (n - s) / 60 := by
  constructor
  · rw [State.display_some s n c h₁, if_pos (by omega)]
  · intro n₂ hle _
    have : (n - s) / 60 ≤ (n₂ - s) / 60 := Nat.div_le_div_right (by omega)
    omega

/-- C2 witness: with the default config, at the inclusive boundary
elapsed = 1500 = 25 minutes the engine still renders Work, with zero
minutes displayed, and the displayed value at any later in-range time
is no larger. -/
theorem display_work_phase_witness :
    State.display ⟨some 0, Config.default⟩ 1500 = some "W: 0m" ∧
    Config.default.duration - (1500 - 0) / 60 ≤ Config.default.duration - (600 - 0) / 60 := by
  have h := display_work_phase Config.default 0 600 (by omega) (by decide)
  refine ⟨?_, h.2 1500 (by omega) (by decide)⟩
  have h₂ := display_work_phase Config.default 0 1500 (by omega) (by decide)
  rw [h₂.1]
  rfl

/-- C5 counterexample: with rest = 0, started_at = 0 and
now = 1500 = work_duration + rest_duration, elapsed has reached the
total, yet the engine renders "W: 0m" because the inclusive Work
boundary wins, not "READY". -/
theorem done_boundary_counterexample :
    State.display ⟨some 0, ⟨8, 25, 0⟩⟩ 1500 = some "W: 0m" ∧
    State.display ⟨some 0, ⟨8, 25, 0⟩⟩ 1500 ≠ some "READY" := by
  constructor
  · rfl
  · decide

/-- C5 (amended): provided the rest duration is positive and the
configured minute sum fits in u64, every elapsed of at least
work_duration + rest_duration seconds renders READY, and it stays
READY for every larger elapsed since the bound is a one-sided
threshold. -/
theorem display_done (c : Config) (s n : Nat) (h₁ : s ≤ n) (hr : 0 < c.rest)
    (h₄ : c.duration + c.rest < u64Max)
    (h₂ : 60 * (c.duration + c.rest) ≤ n - s) :
    State.display ⟨some s, c⟩ n = some "READY" := by
  have hge : c.duration + c.rest ≤ (n - s) / 60 := by omega
  rw [State.display_some s n c h₁, if_neg (by omega), if_pos h₄, if_neg (by omega)]

/-- C5 witness: the default config at now = 1801 renders READY, and so
does the strictly larger now = 999999. -/
theorem display_done_witness :
    State.display ⟨some 0, Config.default⟩ 1801 = some "READY" ∧
    State.display ⟨some 0, Config.default⟩ 999999 = some "READY" :=
  ⟨display_done Config.default 0 1801 (by omega) (by decide)
      (by norm_num [u64Max, Config.default]) (by decide),
   display_done Config.default 0 999999 (by omega) (by decide)
      (by norm_num [u64Max, Config.default]) (by decide)⟩

/-- C3 counterexample: with the default config and exactly 45 seconds
remaining in the Work phase (elapsed = 1455), the engine renders
"W: 1m", never a seconds form such as "W:45s". -/
theorem seconds_rendering_counterexample :
    State.display ⟨some 0, Config.default⟩ 1455 = some "W: 1m" ∧
    State.display ⟨some 0, Config.default⟩ 1455 ≠ some "W:45s" := by
  constructor
  · rfl
  · decide

/-- C3 (amended): for a running session with a valid clock and an
in-range minute sum, the rendered status is always one of READY, a
whole-minute Work form with a space after the colon showing
duration - elapsed / 60, or a whole-minute Rest form showing
duration + rest - elapsed / 60; a seconds form is never produced, and
remaining times under one minute surface as one more whole minute. -/
theorem display_minutes_only (c : Config) (s n : Nat) (h₁ : s ≤ n)
    (h₄ : c.duration + c.rest < u64Max) :
    State.display ⟨some s, c⟩ n = some "READY" ∨
    State.display ⟨some s, c⟩ n =
      some ("W: " ++ toString (c.duration - (n - s) / 60) ++ "m") ∨
    State.display ⟨some s, c⟩ n =
      some ("R: " ++ toString (c.duration + c.rest - (n - s) / 60) ++ "m") := by
  rw [State.display_some s n c h₁]
  by_cases hw : (n - s) / 60 ≤ c.duration
  · right; left
    rw [if_pos hw]
  · by_cases hr : (n - s) / 60 < c.duration + c.rest
    · right; right
      rw [if_neg hw, if_pos h₄, if_pos hr]
    · left
      rw [if_neg hw, if_pos h₄, if_neg hr]

/-- C3 witness: the minute-only rendering shape holds at the concrete
input with 45 seconds of work remaining. -/
theorem display_minutes_only_witness :
    State.display ⟨some 0, Config.default⟩ 1455 = some "READY" ∨
    State.display ⟨some 0, Config.default⟩ 1455 =
      some ("W: " ++ toString (Config.default.duration - (1455 - 0) / 60) ++ "m") ∨
    State.display ⟨some 0, Config.default⟩ 1455 =
      some ("R: " ++ toString (Config.default.duration + Config.default.rest - (1455 - 0) / 60) ++ "m") :=
  display_minutes_only Config.default 0 1455 (by omega)
    (by norm_num [u64Max, Config.default])

/-- C4 counterexample: the engine is not total over every input: with
started_at = 1 and now = 0 the u64 subtraction underflows, and with a
config whose minute sum reaches 2 ^ 64 the u64 addition overflows once
the elapsed minutes exceed the work minutes; both inputs are modelled
as a none result, a panic of the Rust code. -/
theorem display_underflow_counterexample :
    State.display ⟨some 1, Config.default⟩ 0 = none ∧
    State.display ⟨some 0, ⟨8, 10 ^ 17, 2 ^ 64 - 10 ^ 17⟩⟩ (7 * 10 ^ 18) = none := by
  constructor
  · rfl
  · rfl

/-- C4 (amended): the engine is total on every input whose clock has
not gone backwards and whose configured minute sum fits in u64: it then
always produces some well-formed output string. -/
theorem display_total_on_valid_inputs (st : State) (n : Nat)
    (h₁ : ∀ t, st.started_at = some t → t ≤ n)
    (h₄ : st.config.duration + st.config.rest < u64Max) :
    ∃ out, st.display n = some out := by
  obtain ⟨st₀, c⟩ := st
  cases st₀ with
  | none => exact ⟨"no pomodoro running", rfl⟩
  | some t =>
    rw [State.display_some t n c (h₁ t rfl)]
    by_cases hw : (n - t) / 60 ≤ c.duration
    · exact ⟨_, by rw [if_pos hw]⟩
    · by_cases hr : (n - t) / 60 < c.duration + c.rest
      · exact ⟨_, by rw [if_neg hw, if_pos h₄, if_pos hr]⟩
      · exact ⟨_, by rw [if_neg hw, if_pos h₄, if_neg hr]⟩

/-- C4 witness: a concrete valid input on which the engine produces an
output. -/
theorem display_total_on_valid_inputs_witness :
    ∃ out, State.display ⟨some 5, Config.default⟩ 700 = some out :=
  display_total_on_valid_inputs ⟨some 5, Config.default⟩ 700
    (by intro t ht; cases ht; omega) (by norm_num [u64Max, Config.default])

/-- C7 counterexample: when the config file opens but fails to parse,
Config::load propagates the parse error instead of falling back to the
default config. -/
theorem config_load_parse_counterexample :
    Config.load (some "count =") (fun _ => Except.error "invalid toml")
      = Except.error "invalid toml" ∧
    Config.load (some "count =") (fun _ => Except.error "invalid toml")
      ≠ Except.ok Config.default :=
  ⟨rfl, fun h => Except.noConfusion h⟩

/-- C7 (amended): Config::load falls back to the default config
(count 8, duration 25, rest 5) only when the config file cannot be
opened; when the file opens, a parse success is returned as is and a
parse failure is propagated as an error, not swallowed. -/
theorem config_load_fallback (parse : String → Except String Config) :
    Config.load none parse = Except.ok Config.default ∧
    Config.default = ⟨8, 25, 5⟩ ∧
    (∀ s c, parse s = Except.ok c → Config.load (some s) parse = Except.ok c) ∧
    (∀ s e, parse s = Except.error e → Config.load (some s) parse = Except.error e) :=
  ⟨rfl, rfl, fun _ _ h => h, fun _ _ h => h⟩

/-- C7 witness: a concrete parser showing the missing-file fallback and
the propagation of a concrete parse error. -/
theorem config_load_fallback_witness :
    Config.load none (fun _ => Except.error "boom") = Except.ok Config.default ∧
    Config.load (some "x") (fun _ => Except.error "boom") = Except.error "boom" :=
  ⟨(config_load_fallback (fun _ => Except.error "boom")).1,
   (config_load_fallback (fun _ => Except.error "boom")).2.2.2 "x" "boom" rfl⟩

/-- C10: minute granularity: two running sessions with the same config
whose truncated elapsed minute counts agree render the identical status
string, so every transition and displayed value changes only at whole
minutes. -/
theorem minute_granularity (c : Config) (s n s₂ n₂ : Nat)
    (h₁ : s ≤ n) (h₂ : s₂ ≤ n₂)
    (he : (n - s) / 60 = (n₂ - s₂) / 60) :
    State.display ⟨some s, c⟩ n = State.display ⟨some s₂, c⟩ n₂ := by
  rw [State.display_some s n c h₁, State.display_some s₂ n₂ c h₂, he]

/-- C10 witness: elapsed 59 seconds and elapsed 30 seconds share the
truncated minute count 0 and render the same status. -/
theorem minute_granularity_witness :
    State.display ⟨some 0, Config.default⟩ 59 = State.display ⟨some 100, Config.default⟩ 130 :=
  minute_granularity Config.default 0 59 100 130 (by omega) (by omega) (by decide)
